import Mathlib

/-!
Shallow embedding of `Pyro5/serializers.py`: the serializer base class
(compression wrapper, class/dict conversion, security-gated object
reconstruction) and the marshal / json / msgpack / serpent format adapters.

Python values are modelled by the inductive `PyVal`.  Machine floats
(IEEE-754 doubles) are modelled exactly as rationals: the repository code
performs no float arithmetic, it only moves the values around, so the
exact model is faithful.  Byte strings are lists of byte values.
Exceptions raised by the Python code are modelled by `Except PyErr`.
-/

namespace Pyro5

/-- Model of a Python runtime value, covering the canonical value grammar of
the spec (null, boolean, number, text, byte-sequence, sequence, set,
mapping) plus the extra types the serializers special-case: uuid, complex,
datetime, date, reconstructed framework objects and exception instances. -/
inductive PyVal where
  | none
  | bool (b : Bool)
  | int (n : Int)
  | float (q : ℚ)
  | str (s : String)
  | bytes (bs : List Nat)
  | list (xs : List PyVal)
  | tuple (xs : List PyVal)
  | set (xs : List PyVal)
  | dict (kvs : List (PyVal × PyVal))
  | uuid (s : String)
  | complexNum (re im : ℚ)
  | datetime (ts : ℚ) (hasTz : Bool)
  | date (ordinal : Int)
  | obj (ty : String) (state : PyVal)
  | exc (ty : String) (args : List PyVal) (attrs : List (String × PyVal))

/-- Model of the Python exception classes the serializer code can raise. -/
inductive PyErr where
  | securityErr (msg : String)
  | serializeErr (msg : String)
  | valueErr (msg : String)
  | typeErr (msg : String)
  | attributeErr (msg : String)
  | keyErr (msg : String)
  | structErr
  | recursionErr
  deriving DecidableEq, Repr

instance : BEq PyErr := instBEqOfDecidableEq

/-- Exact-type tag of a value, modelling Python's `type(obj)` used for the
exact-type dictionary lookups (`__type_replacements`). -/
inductive PyTypeTag where
  | noneT | boolT | intT | floatT | strT | bytesT | listT | tupleT | setT
  | dictT | uuidT | complexT | datetimeT | dateT | objT | excT
  deriving DecidableEq, Repr

def PyVal.typeTag : PyVal → PyTypeTag
  | .none => .noneT
  | .bool _ => .boolT
  | .int _ => .intT
  | .float _ => .floatT
  | .str _ => .strT
  | .bytes _ => .bytesT
  | .list _ => .listT
  | .tuple _ => .tupleT
  | .set _ => .setT
  | .dict _ => .dictT
  | .uuid _ => .uuidT
  | .complexNum _ _ => .complexT
  | .datetime _ _ => .datetimeT
  | .date _ => .dateT
  | .obj _ _ => .objT
  | .exc _ _ _ => .excT

/-!  A computable structural size for `PyVal`, used only to bound the
recursion depth of `dict_to_class`. -/

mutual

def pySize : PyVal → Nat
  | .none => 1
  | .bool _ => 1
  | .int _ => 1
  | .float _ => 1
  | .str _ => 1
  | .bytes _ => 1
  | .uuid _ => 1
  | .complexNum _ _ => 1
  | .datetime _ _ => 1
  | .date _ => 1
  | .list xs => 1 + pySizeList xs
  | .tuple xs => 1 + pySizeList xs
  | .set xs => 1 + pySizeList xs
  | .dict kvs => 1 + pySizeKvs kvs
  | .obj _ st => 1 + pySize st
  | .exc _ args _ => 1 + pySizeList args

def pySizeList : List PyVal → Nat
  | [] => 0
  | x :: rest => 1 + pySize x + pySizeList rest

def pySizeKvs : List (PyVal × PyVal) → Nat
  | [] => 0
  | (k, v) :: rest => 1 + pySize k + pySize v + pySizeKvs rest

end

/-- Does a dict key equal the given text key?  Python compares dict keys by
value; a text key can only be equal to the same text (a byte string never
equals a text string in Python 3), so matching on the `str` constructor is
exact for the string-keyed lookups the serializer performs. -/
def keyIsStr (k : PyVal) (s : String) : Bool :=
  match k with
  | .str t => t == s
  | _ => false

/-- Python dict lookup `d.get(k)` for a text key on an association list. -/
def pyGet (kvs : List (PyVal × PyVal)) (k : String) : Option PyVal :=
  (kvs.find? (fun p => keyIsStr p.1 k)).map (fun p => p.2)

/-- Python `k in d` key-membership test for a text key. -/
def pyHasKey (kvs : List (PyVal × PyVal)) (k : String) : Bool :=
  kvs.any (fun p => keyIsStr p.1 k)

/-- Python truthiness of a value (`bool(v)`), as used by
`data.get("__exception__", False)` tests. -/
def pyTruthy : PyVal → Bool
  | .none => false
  | .bool b => b
  | .int n => n != 0
  | .float q => q != 0
  | .str s => s ≠ ""
  | .bytes bs => !bs.isEmpty
  | .list xs => !xs.isEmpty
  | .tuple xs => !xs.isEmpty
  | .set xs => !xs.isEmpty
  | .dict kvs => !kvs.isEmpty
  | _ => true

/-- Test for the double-underscore marker: Python `"__" in classname`. -/
def hasDunder : List Char → Bool
  | '_' :: '_' :: _ => true
  | _ :: rest => hasDunder rest
  | [] => false

/-- String-level wrapper for the `"__" in classname` substring test. -/
def strHasDunder (s : String) : Bool := hasDunder s.toList

/-- Python `s.split('.', 1)`: `none` when there is no dot, otherwise the text
before the first dot and the text after it. -/
def breakAtDot : List Char → Option (List Char × List Char)
  | [] => Option.none
  | '.' :: rest => Option.some ([], rest)
  | c :: rest => (breakAtDot rest).map (fun p => (c :: p.1, p.2))

def splitFirstDot (s : String) : Option (String × String) :=
  (breakAtDot s.toList).map (fun p => (p.1.asString, p.2.asString))

/-- Python `s.startswith(pre)`, written over the character list so that it
evaluates by kernel reduction. -/
def charsStartWith : List Char → List Char → Bool
  | _, [] => true
  | [], _ :: _ => false
  | c :: cs, p :: ps => c == p && charsStartWith cs ps

def strStarts (s pre : String) : Bool := charsStartWith s.toList pre.toList

/-- Python `s.endswith(suf)`. -/
def strEnds (s suf : String) : Bool :=
  charsStartWith s.toList.reverse suf.toList.reverse

/-- Python `s[n:]`. -/
def strDrop (s : String) (n : Nat) : String := (s.toList.drop n).asString

/-- Model of `bytes.decode("utf-8")`.  Only the ASCII fragment is modelled
byte-exactly; the repository never manufactures non-ASCII class names. -/
def utf8Decode (bs : List Nat) : String :=
  (bs.map Char.ofNat).asString

/-- Modelled from the spec: the `Pyro5.errors` module is not under `src/`
(only `serializers.py` imports it).  Per the spec it supplies the framework
error hierarchy rooted at `PyroError`; every attribute of the module is a
`PyroError` subclass, so the `issubclass(errortype, errors.PyroError)`
check in `dict_to_class` succeeds for every resolvable attribute. -/
def pyroErrorNames : List String :=
  ["PyroError", "CommunicationError", "ConnectionClosedError", "TimeoutError",
   "ProtocolError", "MessageTooLargeError", "NamingError", "DaemonError",
   "SecurityError", "SerializeError"]

/-- Exception-class names of the host runtime's `builtins` namespace
(the module-level scan `vars(builtins)` in `serializers.py` keeps exactly
the `BaseException` subclasses).  A finite model of the host runtime. -/
def builtinExcNames : List String :=
  ["BaseException", "Exception", "ArithmeticError", "AssertionError",
   "AttributeError", "BlockingIOError", "BrokenPipeError", "BufferError",
   "ChildProcessError", "ConnectionAbortedError", "ConnectionError",
   "ConnectionRefusedError", "ConnectionResetError", "EOFError",
   "FileExistsError", "FileNotFoundError", "FloatingPointError",
   "GeneratorExit", "ImportError", "IndentationError", "IndexError",
   "InterruptedError", "IsADirectoryError", "KeyError", "KeyboardInterrupt",
   "LookupError", "MemoryError", "ModuleNotFoundError", "NameError",
   "NotADirectoryError", "NotImplementedError", "OSError", "OverflowError",
   "PermissionError", "ProcessLookupError", "RecursionError",
   "ReferenceError", "RuntimeError", "StopAsyncIteration", "StopIteration",
   "SyntaxError", "SystemError", "SystemExit", "TabError", "TimeoutError",
   "TypeError", "UnboundLocalError", "UnicodeDecodeError",
   "UnicodeEncodeError", "UnicodeError", "UnicodeTranslateError",
   "ValueError", "ZeroDivisionError"]

/-- The module-level table `all_exceptions`: builtin exception classes keyed
by short name, then the framework errors keyed by short name (the second
loop overwrites colliding keys such as `TimeoutError`).  The result is the
fully qualified name of the resolved exception type. -/
def allExceptions (name : String) : Option String :=
  if pyroErrorNames.contains name then some ("Pyro5.errors." ++ name)
  else if builtinExcNames.contains name then some ("builtins." ++ name)
  else none

/-- Kind of a `builtins` attribute, as needed by the
`getattr(builtins, short_classname)` / `issubclass` gate. -/
inductive BuiltinAttrKind where
  | excClass
  | nonExcClass
  | nonClass
  deriving DecidableEq, Repr

/-- Finite model of `getattr(builtins, name)`: exception classes, a few
non-exception classes, a few non-class attributes, otherwise absent. -/
def builtinsAttr (name : String) : Option BuiltinAttrKind :=
  if builtinExcNames.contains name then some .excClass
  else if ["int", "str", "float", "bool", "list", "dict", "set", "tuple",
           "bytes", "object", "type", "complex"].contains name then
    some .nonExcClass
  else if ["print", "len", "repr", "vars", "getattr", "setattr",
           "isinstance", "issubclass"].contains name then some .nonClass
  else none

/-- The `sqlite3` module attributes whose name ends in `Error` (all are
`BaseException` subclasses); a finite model of the host runtime module. -/
def sqlite3ErrorNames : List String :=
  ["Error", "InterfaceError", "DatabaseError", "DataError",
   "OperationalError", "IntegrityError", "InternalError",
   "ProgrammingError", "NotSupportedError"]

/-- Python text of `str(obj.__class__)` for the model values, used in the
error messages of `class_to_dict`. -/
def pyTypeName : PyVal → String
  | .none => "NoneType"
  | .bool _ => "bool"
  | .int _ => "int"
  | .float _ => "float"
  | .str _ => "str"
  | .bytes _ => "bytes"
  | .list _ => "list"
  | .tuple _ => "tuple"
  | .set _ => "set"
  | .dict _ => "dict"
  | .uuid _ => "uuid.UUID"
  | .complexNum _ _ => "complex"
  | .datetime _ _ => "datetime.datetime"
  | .date _ => "datetime.date"
  | .obj ty _ => ty
  | .exc ty _ _ => ty

def pyClassStr (v : PyVal) : String := "<class \x27" ++ pyTypeName v ++ "\x27>"

/-- Outbound registry `__custom_class_to_dict_registry`: Python classes are
external semantics, so a registered class is modelled by its `isinstance`
predicate; the entry pairs it with the registered converter.  Iteration
order is registration (insertion) order, first match wins. -/
def ClassToDictReg := List ((PyVal → Bool) × (PyVal → PyVal))

/-- Inbound registry `__custom_dict_to_class_registry`: keyed by the class
name, the converter receives the class name and the record dict. -/
def DictToClassReg := List (String × (String → List (PyVal × PyVal) → PyVal))

/-- `SerializerBase.class_to_dict` (serializers.py lines 141-184).
`clsName` is `cls.__name__`, which appears in the final error message.
The `_pyroDaemon` branch (lines 152-153) clears a live daemon
back-reference; no model value carries one, so it is a no-op here.
The `__getstate__` branch (lines 162-168) applies to no model value
either (builtin types return a non-dict state, model framework objects
are handled by the `vars` branch). -/
def class_to_dict (creg : ClassToDictReg) (clsName : String) (obj : PyVal) :
    Except PyErr PyVal :=
  match creg.find? (fun e => e.1 obj) with
  | some e => .ok (e.2 obj)
  | none =>
    match obj with
    | .set _ | .dict _ | .tuple _ | .list _ =>
      -- a ValueError, mirroring the exception type of the upstream converters
      .error (.valueErr ("can\x27t serialize type " ++ pyClassStr obj ++ " into a dict"))
    | .exc ty args attrs =>
      .ok (.dict [(.str "__class__", .str ty), (.str "__exception__", .bool true),
                  (.str "args", .tuple args),
                  (.str "attributes", .dict (attrs.map (fun p => (.str p.1, p.2))))])
    | .obj ty (PyVal.dict kvs) =>
      -- dict(vars(obj)) followed by value["__class__"] = ... (insertion order)
      .ok (.dict (kvs ++ [(.str "__class__", .str ty)]))
    | v =>
      -- vars() raises TypeError, there is no __slots__: SerializeError
      .error (.serializeErr ("don\x27t know how to serialize class " ++ pyClassStr v ++
        " using serializer " ++ clsName ++
        ". Give it vars() or an appropriate __getstate__"))

/-- `setattr` loop of `make_exception`: every attribute name must be text. -/
def collectAttrs : List (PyVal × PyVal) → Except PyErr (List (String × PyVal))
  | [] => .ok []
  | (k, v) :: rest =>
    match k with
    | .str s => (collectAttrs rest).map (fun l => (s, v) :: l)
    | _ => .error (.typeErr "attribute name must be string")

/-- `SerializerBase.make_exception` (serializers.py lines 252-259):
`ex = exceptiontype(*data["args"])`, then the entries of
`data["attributes"]` are set on the instance. -/
def make_exception (ty : String) (data : List (PyVal × PyVal)) :
    Except PyErr PyVal :=
  match pyGet data "args" with
  | none => .error (.keyErr "args")
  | some argsv =>
    match argsv with
    | .tuple args | .list args =>
      match pyGet data "attributes" with
      | none => .ok (.exc ty args [])
      | some (.dict kvs) =>
        match collectAttrs kvs with
        | .ok attrs => .ok (.exc ty args attrs)
        | .error e => .error e
      | some _ => .error (.attributeErr "attributes object has no attribute items")
    | _ => .error (.typeErr "argument list unpacking needs a sequence")

/-- `classname = data.get("__class__", "<unknown>")` followed by the
utf-8 decode of a byte-string name (serializers.py lines 193-195).
A name that is neither text nor bytes would raise `TypeError` at the
`"__" in classname` test, which is the first place that iterates it
(the registry lookup cannot match it against the text keys). -/
def extractClassname (data : List (PyVal × PyVal)) : Except PyErr String :=
  match pyGet data "__class__" with
  | none => .ok "<unknown>"
  | some (.str s) => .ok s
  | some (.bytes bs) => .ok (utf8Decode bs)
  | some _ => .error (.typeErr "argument is not iterable")

def unsupportedClass (c : String) : Except PyErr PyVal :=
  -- log.warning("unsupported serialized class: " + classname) precedes the
  -- raise; the logging side effect is not modelled.
  .error (.serializeErr ("unsupported serialized class: " ++ c))

/-- `SerializerBase.dict_to_class` (serializers.py lines 186-250).
The hardcoded `Pyro5.core` whitelist is reconstructed by the two-phase
allocate / `__setstate_from_dict__` protocol of the spec; `Pyro5.core` is
not under `src/`, so the reconstructed instances are modelled as opaque
`PyVal.obj` values carrying the restored state.  The
`Pyro5.core._ExceptionWrapper` branch is kept although it is unreachable:
its name starts with `"Pyro5.core."` and is therefore consumed by the
earlier prefix branch.  The only recursive call (in that branch) is on a
dict found inside `data`, so the size of `data` bounds the recursion
depth; `dict_to_class` passes that bound as a structural argument (the
exhausted case is unreachable, matching Python's `RecursionError`). -/
def dict_to_classAux (reg : DictToClassReg) :
    Nat → List (PyVal × PyVal) → Except PyErr PyVal
  | 0, _ => .error .recursionErr
  | depth + 1, data =>
    match extractClassname data with
    | .error e => .error e
    | .ok classname =>
      match reg.find? (fun e => e.1 == classname) with
      | some e => .ok (e.2 classname data)
      | none =>
        if strHasDunder classname then
          .error (.securityErr
            ("refused to deserialize types with double underscores in their name: " ++ classname))
        else if strStarts classname "Pyro5.core." then
          if classname == "Pyro5.core.URI" ∨ classname == "Pyro5.core.Proxy" ∨
              classname == "Pyro5.core.Daemon" then
            match pyGet data "state" with
            | none => .error (.keyErr "state")
            | some st => .ok (.obj classname st)
          else unsupportedClass classname
        else if strStarts classname "Pyro5.util." then
          if classname == "Pyro5.util.SerpentSerializer" ∨
              classname == "Pyro5.util.MarshalSerializer" ∨
              classname == "Pyro5.util.JsonSerializer" ∨
              classname == "Pyro5.util.MsgpackSerializer" then
            .ok (.obj classname .none)
          else unsupportedClass classname
        else if strStarts classname "Pyro5.errors." then
          -- errortype = getattr(errors, classname.split(".", 2)[2]); under
          -- the prefix guard the split tail is the text after "Pyro5.errors."
          let short := strDrop classname 13
          if pyroErrorNames.contains short then
            -- issubclass(errortype, errors.PyroError) holds for every
            -- attribute of the modelled errors module
            make_exception ("Pyro5.errors." ++ short) data
          else .error (.attributeErr ("module Pyro5.errors has no attribute " ++ short))
        else if classname == "Pyro5.core._ExceptionWrapper" then
          match pyGet data "exception" with
          | none => .error (.keyErr "exception")
          | some ex =>
            match ex with
            | .dict kvs =>
              if pyHasKey kvs "__class__" then
                match dict_to_classAux reg depth kvs with
                | .ok v => .ok (.obj "Pyro5.core._ExceptionWrapper" v)
                | .error e => .error e
              else .ok (.obj "Pyro5.core._ExceptionWrapper" ex)
            | _ => .ok (.obj "Pyro5.core._ExceptionWrapper" ex)
        else if pyTruthy ((pyGet data "__exception__").getD (.bool false)) then
          match allExceptions classname with
          | some qual => make_exception qual data
          | none =>
            -- namespace, short_classname = classname.split(".", 1)
            match splitFirstDot classname with
            | none => .error (.valueErr "not enough values to unpack")
            | some (ns, short) =>
              if ns == "builtins" ∨ ns == "exceptions" then
                match builtinsAttr short with
                | none => .error (.attributeErr ("module builtins has no attribute " ++ short))
                | some .excClass => make_exception ("builtins." ++ short) data
                | some .nonExcClass => unsupportedClass classname
                | some .nonClass => .error (.typeErr "issubclass() arg 1 must be a class")
              else if ns == "sqlite3" ∧ strEnds short "Error" then
                if sqlite3ErrorNames.contains short then
                  make_exception ("sqlite3." ++ short) data
                else .error (.attributeErr ("module sqlite3 has no attribute " ++ short))
              else unsupportedClass classname
        else unsupportedClass classname

def dict_to_class (reg : DictToClassReg) (data : List (PyVal × PyVal)) :
    Except PyErr PyVal :=
  dict_to_classAux reg (pySizeKvs data + 1) data

/-- `SerializerBase.__compressdata` (serializers.py lines 81-87).
`zlibCompress` models the external `zlib.compress`. -/
def compressdata (zlibCompress : List Nat → List Nat) (data : List Nat)
    (compress : Bool) : List Nat × Bool :=
  if !compress ∨ data.length < 200 then (data, false)
  else
    let compressed := zlibCompress data
    if compressed.length < data.length then (compressed, true)
    else (data, false)

/-- `SerializerBase.serializeData` (serializers.py lines 35-39): dump with
the adapter's `dumps`, then apply the compression wrapper. -/
def serializeData (dumps : PyVal → List Nat) (zlibCompress : List Nat → List Nat)
    (data : PyVal) (compress : Bool) : List Nat × Bool :=
  compressdata zlibCompress (dumps data) compress

/-!  `SerializerBase.recreate_classes` (serializers.py lines 261-276).
The virtual `self.dict_to_class` is passed in as `d2c` (the serpent
adapter overrides it).  Sets, lists and tuples recurse element-wise; a
dict carrying the `"__class__"` key is handed raw to `d2c`; any other
dict recurses over its values (keys are kept as they are). -/

mutual

def recreate_classes (d2c : List (PyVal × PyVal) → Except PyErr PyVal) :
    PyVal → Except PyErr PyVal
  | .set xs =>
    match recreateList d2c xs with
    | .ok ys => .ok (.set ys)
    | .error e => .error e
  | .list xs =>
    match recreateList d2c xs with
    | .ok ys => .ok (.list ys)
    | .error e => .error e
  | .tuple xs =>
    match recreateList d2c xs with
    | .ok ys => .ok (.tuple ys)
    | .error e => .error e
  | .dict kvs =>
    if pyHasKey kvs "__class__" then d2c kvs
    else
      match recreateVals d2c kvs with
      | .ok ys => .ok (.dict ys)
      | .error e => .error e
  | v => .ok v

def recreateList (d2c : List (PyVal × PyVal) → Except PyErr PyVal) :
    List PyVal → Except PyErr (List PyVal)
  | [] => .ok []
  | x :: rest =>
    match recreate_classes d2c x with
    | .ok y =>
      match recreateList d2c rest with
      | .ok ys => .ok (y :: ys)
      | .error e => .error e
    | .error e => .error e

def recreateVals (d2c : List (PyVal × PyVal) → Except PyErr PyVal) :
    List (PyVal × PyVal) → Except PyErr (List (PyVal × PyVal))
  | [] => .ok []
  | (k, v) :: rest =>
    match recreate_classes d2c v with
    | .ok w =>
      match recreateVals d2c rest with
      | .ok ys => .ok ((k, w) :: ys)
      | .error e => .error e
    | .error e => .error e

end

/-!  The marshal adapter (`MarshalSerializer`, serializers.py lines
288-320).  The external `marshal` module is modelled by its contract: it
round-trips exactly its native value domain and raises
`ValueError`/`TypeError` on anything else, which `dumps` catches to fall
back on `class_to_dict`. -/

mutual

/-- The value domain the `marshal` module serializes natively. -/
def marshalable : PyVal → Bool
  | .none => true
  | .bool _ => true
  | .int _ => true
  | .float _ => true
  | .str _ => true
  | .bytes _ => true
  | .complexNum _ _ => true
  | .list xs => marshalableList xs
  | .tuple xs => marshalableList xs
  | .set xs => marshalableList xs
  | .dict kvs => marshalableVals kvs
  | _ => false

def marshalableList : List PyVal → Bool
  | [] => true
  | x :: rest => marshalable x && marshalableList rest

def marshalableVals : List (PyVal × PyVal) → Bool
  | [] => true
  | (k, v) :: rest => marshalable k && marshalable v && marshalableVals rest

end

/-- `MarshalSerializer.class_to_dict` (lines 312-316): a uuid becomes its
canonical text, everything else goes to the base implementation. -/
def marshal_class_to_dict (creg : ClassToDictReg) (obj : PyVal) :
    Except PyErr PyVal :=
  match obj with
  | .uuid s => .ok (.str s)
  | v => class_to_dict creg "MarshalSerializer" v

/-- `MarshalSerializer.dumps` (lines 295-299): try `marshal.dumps`; on
`ValueError`/`TypeError` marshal the `class_to_dict` form instead.  The
wire form is modelled as the marshal-native value itself. -/
def marshalDumps (creg : ClassToDictReg) (v : PyVal) : Except PyErr PyVal :=
  if marshalable v then .ok v
  else
    match marshal_class_to_dict creg v with
    | .error e => .error e
    | .ok d => if marshalable d then .ok d else .error (.valueErr "unmarshallable object")

/-- `MarshalSerializer.loads` (lines 308-310): unmarshal, then
`recreate_classes`. -/
def marshalLoads (reg : DictToClassReg) (v : PyVal) : Except PyErr PyVal :=
  recreate_classes (dict_to_class reg) v

/-- `deserialize(serialize v)` through the marshal adapter. -/
def marshalRoundTrip (creg : ClassToDictReg) (reg : DictToClassReg)
    (v : PyVal) : Except PyErr PyVal :=
  (marshalDumps creg v).bind (marshalLoads reg)

/-!  The json adapter (`JsonSerializer`, serializers.py lines 360-402).
The external `json` module is modelled by its contract: it serializes its
native domain (null, bool, numbers, text, arrays, text-keyed objects)
losslessly, coerces scalar mapping keys to text, and calls the adapter's
`default` hook on anything else; the value `default` returns is fed back
to the encoder.  The wire form is modelled as the json-native value, so
json arrays deserialize to lists (a tuple comes back as a list).  The
fuel argument bounds the re-encoding depth of `default` results; Python
likewise bounds it by `RecursionError`. -/

/-- `__type_replacements.get(type(obj), None)` applied to the object
(`JsonSerializer.default`, line 387-389 and `MsgpackSerializer.default`,
lines 427-429): an exact-type match replaces the object. -/
def TypeRepl := List (PyTypeTag × (PyVal → PyVal))

def applyRepl (repl : TypeRepl) (v : PyVal) : PyVal :=
  match repl.find? (fun e => e.1 == v.typeTag) with
  | some e => e.2 v
  | none => v

/-- Model of the text rendering `datetime.isoformat()`; the exact text is
produced by the host runtime, no claim depends on it. -/
def isoformatDatetime (ts : ℚ) (hasTz : Bool) : String :=
  "datetime-" ++ toString ts.num ++ "/" ++ toString ts.den ++
    (if hasTz then "+tz" else "")

/-- Model of the text rendering `date.isoformat()`. -/
def isoformatDate (ordinal : Int) : String := "date-" ++ toString ordinal

/-- Model of the text repr of a float, used by the json key coercion. -/
def floatRepr (q : ℚ) : String := toString q.num ++ "/" ++ toString q.den

/-- The json encoder's mapping-key coercion: text keys stay, scalar keys
are rendered as text, container keys raise `TypeError`. -/
def jsonKeyStr : PyVal → Except PyErr String
  | .str s => .ok s
  | .int n => .ok (toString n)
  | .float q => .ok (floatRepr q)
  | .bool b => .ok (if b then "true" else "false")
  | .none => .ok "null"
  | _ => .error (.typeErr "keys must be str, int, float, bool or None")

mutual

def jsonEnc (fuel : Nat) (repl : TypeRepl) (creg : ClassToDictReg) :
    PyVal → Except PyErr PyVal
  | .none => .ok .none
  | .bool b => .ok (.bool b)
  | .int n => .ok (.int n)
  | .float q => .ok (.float q)
  | .str s => .ok (.str s)
  | .list xs =>
    match jsonEncList fuel repl creg xs with
    | .ok ys => .ok (.list ys)
    | .error e => .error e
  | .tuple xs =>
    -- a json array; it deserializes to a list
    match jsonEncList fuel repl creg xs with
    | .ok ys => .ok (.list ys)
    | .error e => .error e
  | .dict kvs =>
    match jsonEncDict fuel repl creg kvs with
    | .ok ys => .ok (.dict ys)
    | .error e => .error e
  | v => jsonDefault fuel repl creg v

/-- `JsonSerializer.default` (lines 386-398), fused with the json
encoder's re-encoding of the hook's result. -/
def jsonDefault (fuel : Nat) (repl : TypeRepl) (creg : ClassToDictReg)
    (v : PyVal) : Except PyErr PyVal :=
  match fuel with
  | 0 => .error .recursionErr
  | fuel + 1 =>
    match applyRepl repl v with
    | .set xs => jsonEnc fuel repl creg (.tuple xs)
    | .uuid s => jsonEnc fuel repl creg (.str s)
    | .datetime ts tz => jsonEnc fuel repl creg (.str (isoformatDatetime ts tz))
    | .date n => jsonEnc fuel repl creg (.str (isoformatDate n))
    | o =>
      match class_to_dict creg "JsonSerializer" o with
      | .error e => .error e
      | .ok d => jsonEnc fuel repl creg d

def jsonEncList (fuel : Nat) (repl : TypeRepl) (creg : ClassToDictReg) :
    List PyVal → Except PyErr (List PyVal)
  | [] => .ok []
  | x :: rest =>
    match jsonEnc fuel repl creg x with
    | .ok y =>
      match jsonEncList fuel repl creg rest with
      | .ok ys => .ok (y :: ys)
      | .error e => .error e
    | .error e => .error e

def jsonEncDict (fuel : Nat) (repl : TypeRepl) (creg : ClassToDictReg) :
    List (PyVal × PyVal) → Except PyErr (List (PyVal × PyVal))
  | [] => .ok []
  | (k, v) :: rest =>
    match jsonKeyStr k with
    | .ok ks =>
      match jsonEnc fuel repl creg v with
      | .ok w =>
        match jsonEncDict fuel repl creg rest with
        | .ok ys => .ok ((.str ks, w) :: ys)
        | .error e => .error e
      | .error e => .error e
    | .error e => .error e

end

/-- `JsonSerializer.loads` (lines 382-384): decode, then
`recreate_classes`.  The wire value is already the json-native form. -/
def jsonLoads (reg : DictToClassReg) (v : PyVal) : Except PyErr PyVal :=
  recreate_classes (dict_to_class reg) v

/-- `deserialize(serialize v)` through the json adapter. -/
def jsonRoundTrip (fuel : Nat) (repl : TypeRepl) (creg : ClassToDictReg)
    (reg : DictToClassReg) (v : PyVal) : Except PyErr PyVal :=
  (jsonEnc fuel repl creg v).bind (jsonLoads reg)

/-!  The msgpack adapter (`MsgpackSerializer`, serializers.py lines
405-469) and the extension type codec.  The external `struct` module's
fixed layouts are modelled symbolically by `Payload`: `struct.pack`
builds a payload of the corresponding shape, `struct.unpack` destructs
it and raises `struct.error` on a shape mismatch; IEEE-754 doubles are
modelled exactly as rationals, a platform `long` as an 8-byte signed
integer.  `payloadByteLen` gives the byte length of each packed layout. -/

inductive Payload where
  | dd (re im : ℚ)
  | d (x : ℚ)
  | l (n : Int)
  | ascii (s : String)
  deriving DecidableEq, Repr

/-- Byte length of a packed payload: `struct.pack("dd", ...)` yields 16
bytes, `"d"` 8 bytes, `"l"` 8 bytes (64-bit platform), an ASCII digit
string one byte per character. -/
def payloadByteLen : Payload → Nat
  | .dd _ _ => 16
  | .d _ => 8
  | .l _ => 8
  | .ascii s => s.length

/-- The msgpack wire value domain: the format's native values plus the
tagged extension values. -/
inductive MVal where
  | nil
  | boolv (b : Bool)
  | intv (n : Int)
  | floatv (q : ℚ)
  | strv (s : String)
  | binv (bs : List Nat)
  | arr (xs : List MVal)
  | mapv (kvs : List (MVal × MVal))
  | ext (code : Nat) (payload : Payload)

/-- The integers the msgpack format packs natively (int64 / uint64);
anything outside is handed to the `default` hook. -/
def msgpackNativeInt (n : Int) : Bool :=
  decide (-(2 ^ 63) ≤ n) && decide (n < 2 ^ 64)

/-- Python `str(obj)` for an integer, used by the arbitrary-precision
branch `str(obj).encode("ascii")`. -/
def intToAscii (n : Int) : String := toString n

/-- Decimal digit accumulator for `asciiToInt`. -/
def asciiDigitsAux : List Char → Nat → Option Nat
  | [], acc => some acc
  | c :: rest, acc =>
    if c.isDigit then asciiDigitsAux rest (acc * 10 + (c.toNat - 48))
    else none

/-- Model of Python `int(data)` on an ASCII byte string: optional sign
followed by decimal digits (surrounding whitespace not modelled);
anything else raises `ValueError`. -/
def asciiToInt (s : String) : Option Int :=
  match s.toList with
  | [] => none
  | '-' :: rest =>
    if rest.isEmpty then none
    else (asciiDigitsAux rest 0).map (fun n => -(n : Int))
  | '+' :: rest =>
    if rest.isEmpty then none
    else (asciiDigitsAux rest 0).map (fun n => (n : Int))
  | l => (asciiDigitsAux l 0).map (fun n => (n : Int))

mutual

def mpEnc (fuel : Nat) (repl : TypeRepl) (creg : ClassToDictReg) :
    PyVal → Except PyErr MVal
  | .none => .ok .nil
  | .bool b => .ok (.boolv b)
  | .int n =>
    if msgpackNativeInt n then .ok (.intv n)
    else mpDefault fuel repl creg (.int n)
  | .float q => .ok (.floatv q)
  | .str s => .ok (.strv s)
  | .bytes bs => .ok (.binv bs)
  | .list xs =>
    match mpEncList fuel repl creg xs with
    | .ok ys => .ok (.arr ys)
    | .error e => .error e
  | .tuple xs =>
    -- packed as an array; it deserializes to a list
    match mpEncList fuel repl creg xs with
    | .ok ys => .ok (.arr ys)
    | .error e => .error e
  | .dict kvs =>
    match mpEncDict fuel repl creg kvs with
    | .ok ys => .ok (.mapv ys)
    | .error e => .error e
  | v => mpDefault fuel repl creg v

/-- `MsgpackSerializer.default` (lines 426-448), fused with the packer's
re-encoding of the hook's result.  An `ExtType` result is final wire
data; any other result is packed again. -/
def mpDefault (fuel : Nat) (repl : TypeRepl) (creg : ClassToDictReg)
    (v : PyVal) : Except PyErr MVal :=
  match fuel with
  | 0 => .error .recursionErr
  | fuel + 1 =>
    match applyRepl repl v with
    | .set xs => mpEnc fuel repl creg (.tuple xs)
    | .uuid s => mpEnc fuel repl creg (.str s)
    | .complexNum re im => .ok (.ext 0x30 (.dd re im))
    | .datetime ts tz =>
      if tz then .error (.serializeErr "msgpack cannot serialize datetime with timezone info")
      else .ok (.ext 0x32 (.d ts))
    | .date n => .ok (.ext 0x33 (.l n))
    | .int n => .ok (.ext 0x31 (.ascii (intToAscii n)))   -- numbers.Number, "long"
    | o =>
      match class_to_dict creg "MsgpackSerializer" o with
      | .error e => .error e
      | .ok d => mpEnc fuel repl creg d

def mpEncList (fuel : Nat) (repl : TypeRepl) (creg : ClassToDictReg) :
    List PyVal → Except PyErr (List MVal)
  | [] => .ok []
  | x :: rest =>
    match mpEnc fuel repl creg x with
    | .ok y =>
      match mpEncList fuel repl creg rest with
      | .ok ys => .ok (y :: ys)
      | .error e => .error e
    | .error e => .error e

def mpEncDict (fuel : Nat) (repl : TypeRepl) (creg : ClassToDictReg) :
    List (PyVal × PyVal) → Except PyErr (List (MVal × MVal))
  | [] => .ok []
  | (k, v) :: rest =>
    match mpEnc fuel repl creg k with
    | .ok ks =>
      match mpEnc fuel repl creg v with
      | .ok w =>
        match mpEncDict fuel repl creg rest with
        | .ok ys => .ok ((ks, w) :: ys)
        | .error e => .error e
      | .error e => .error e
    | .error e => .error e

end

/-- `MsgpackSerializer.ext_hook` (lines 455-465): dispatch purely on the
tag byte; an unpack on a payload of the wrong packed shape raises
`struct.error`; an unrecognized tag raises `SerializeError`. -/
def ext_hook (code : Nat) (data : Payload) : Except PyErr PyVal :=
  if code == 0x30 then
    match data with
    | .dd re im => .ok (.complexNum re im)
    | _ => .error .structErr
  else if code == 0x31 then
    match data with
    | .ascii s =>
      match asciiToInt s with
      | some n => .ok (.int n)
      | none => .error (.valueErr "invalid literal for int")
    | _ => .error (.valueErr "invalid literal for int")
  else if code == 0x32 then
    match data with
    | .d x =>
      -- datetime.datetime.fromtimestamp(x): a timezone-naive timestamp
      .ok (.datetime x false)
    | _ => .error .structErr
  else if code == 0x33 then
    match data with
    | .l n =>
      -- datetime.date.fromordinal(n): valid for years 1..9999
      if 1 ≤ n ∧ n ≤ 3652059 then .ok (.date n)
      else .error (.valueErr "ordinal out of range")
    | _ => .error .structErr
  else .error (.serializeErr ("invalid ext code for msgpack: " ++ toString code))

mutual

/-- The msgpack unpacker with `object_hook` (lines 450-453) applied to
every decoded map and `ext_hook` to every extension value. -/
def mpDec (reg : DictToClassReg) : MVal → Except PyErr PyVal
  | .nil => .ok .none
  | .boolv b => .ok (.bool b)
  | .intv n => .ok (.int n)
  | .floatv q => .ok (.float q)
  | .strv s => .ok (.str s)
  | .binv bs => .ok (.bytes bs)
  | .arr xs =>
    match mpDecList reg xs with
    | .ok ys => .ok (.list ys)
    | .error e => .error e
  | .mapv kvs =>
    match mpDecPairs reg kvs with
    | .ok ys =>
      if pyHasKey ys "__class__" then dict_to_class reg ys
      else .ok (.dict ys)
    | .error e => .error e
  | .ext code payload => ext_hook code payload

def mpDecList (reg : DictToClassReg) : List MVal → Except PyErr (List PyVal)
  | [] => .ok []
  | x :: rest =>
    match mpDec reg x with
    | .ok y =>
      match mpDecList reg rest with
      | .ok ys => .ok (y :: ys)
      | .error e => .error e
    | .error e => .error e

def mpDecPairs (reg : DictToClassReg) :
    List (MVal × MVal) → Except PyErr (List (PyVal × PyVal))
  | [] => .ok []
  | (k, v) :: rest =>
    match mpDec reg k with
    | .ok ks =>
      match mpDec reg v with
      | .ok w =>
        match mpDecPairs reg rest with
        | .ok ys => .ok ((ks, w) :: ys)
        | .error e => .error e
      | .error e => .error e
    | .error e => .error e

end

/-- `deserialize(serialize v)` through the msgpack adapter. -/
def msgpackRoundTrip (fuel : Nat) (repl : TypeRepl) (creg : ClassToDictReg)
    (reg : DictToClassReg) (v : PyVal) : Except PyErr PyVal :=
  (mpEnc fuel repl creg v).bind (mpDec reg)

/-!  The serpent adapter (`SerpentSerializer`, serializers.py lines
323-357).  The serpent library itself is not under `src/`. -/

mutual

/-- Modelled from the spec: the serpent library (the native-literal text
format) is absent from `src/`; per the spec it "directly supports all
canonical variants including sets without coercion", so its native
domain is the full canonical grammar. -/
def serpentable : PyVal → Bool
  | .none => true
  | .bool _ => true
  | .int _ => true
  | .float _ => true
  | .str _ => true
  | .bytes _ => true
  | .list xs => serpentableList xs
  | .tuple xs => serpentableList xs
  | .set xs => serpentableList xs
  | .dict kvs => serpentableVals kvs
  | _ => false

def serpentableList : List PyVal → Bool
  | [] => true
  | x :: rest => serpentable x && serpentableList rest

def serpentableVals : List (PyVal × PyVal) → Bool
  | [] => true
  | (k, v) :: rest => serpentable k && serpentable v && serpentableVals rest

end

/-- Modelled from the spec: `serpent.dumps` on the canonical grammar is
lossless, so the wire form is the value itself. -/
def serpentDumps (v : PyVal) : Except PyErr PyVal :=
  if serpentable v then .ok v
  else .error (.serializeErr "unsupported type for the serpent model")

/-- `SerpentSerializer.dict_to_class` (lines 353-357): serpent encodes a
float nan as a special class dict `{"__class__": "float", "value": ...}`;
otherwise defer to the base implementation. -/
def serpent_dict_to_class (reg : DictToClassReg)
    (data : List (PyVal × PyVal)) : Except PyErr PyVal :=
  match pyGet data "__class__" with
  | some (.str "float") =>
    match pyGet data "value" with
    | some (.float q) => .ok (.float q)
    | some (.int n) => .ok (.float (n : ℚ))
    | _ => .error (.typeErr "float() argument")
  | _ => dict_to_class reg data

/-- `SerpentSerializer.loads` (lines 339-340). -/
def serpentLoads (reg : DictToClassReg) (v : PyVal) : Except PyErr PyVal :=
  recreate_classes (serpent_dict_to_class reg) v

/-- `deserialize(serialize v)` through the serpent adapter. -/
def serpentRoundTrip (reg : DictToClassReg) (v : PyVal) : Except PyErr PyVal :=
  (serpentDumps v).bind (serpentLoads reg)

/-!  The common round-trip grammar: the fragment of the canonical value
grammar that every format adapter represents natively and identically.
Numbers are kept inside the binary format's native integer range, mapping
keys are text other than the reserved `"__class__"` tag (a record carrying
the tag is reconstructed, not returned). -/

/-- Scalar (hashable) canonical values; what a round-tripping set carries. -/
def scalarVal : PyVal → Bool
  | .none => true
  | .bool _ => true
  | .float _ => true
  | .str _ => true
  | .int n => msgpackNativeInt n
  | _ => false

def scalarList : List PyVal → Bool
  | [] => true
  | x :: rest => scalarVal x && scalarList rest

/-- Mapping keys of the common round-trip grammar: text keys other than
the reserved tag. -/
def plainKey : PyVal → Bool
  | .str s => s != "__class__"
  | _ => false

mutual

def plainVal : PyVal → Bool
  | .none => true
  | .bool _ => true
  | .float _ => true
  | .str _ => true
  | .int n => msgpackNativeInt n
  | .list xs => plainList xs
  | .dict kvs => plainDict kvs
  | _ => false

def plainList : List PyVal → Bool
  | [] => true
  | x :: rest => plainVal x && plainList rest

def plainDict : List (PyVal × PyVal) → Bool
  | [] => true
  | (k, v) :: rest => plainKey k && plainVal v && plainDict rest

end

/-!  ## Round-trip lemmas over the common grammar -/

theorem scalar_plain : ∀ v, scalarVal v = true → plainVal v = true := by
  intro v h
  cases v <;> simp_all [scalarVal, plainVal]

theorem scalarList_plainList : ∀ xs, scalarList xs = true → plainList xs = true
  | [], _ => rfl
  | x :: rest, h => by
    rw [scalarList, Bool.and_eq_true] at h
    have h1 := scalar_plain x h.1
    have h2 := scalarList_plainList rest h.2
    simp [plainList, h1, h2]

theorem plainDict_no_tag : ∀ kvs, plainDict kvs = true → pyHasKey kvs "__class__" = false
  | [], _ => rfl
  | (k, v) :: rest, h => by
    rw [plainDict, Bool.and_eq_true, Bool.and_eq_true] at h
    obtain ⟨⟨hk, _⟩, hr⟩ := h
    have hrest := plainDict_no_tag rest hr
    unfold pyHasKey at hrest ⊢
    rw [List.any_cons, hrest, Bool.or_false]
    cases k <;> simp_all [plainKey, keyIsStr]

mutual

theorem recreate_plain (d2c : List (PyVal × PyVal) → Except PyErr PyVal) :
    ∀ v, plainVal v = true → recreate_classes d2c v = .ok v
  | .none, _ => rfl
  | .bool _, _ => rfl
  | .int _, _ => rfl
  | .float _, _ => rfl
  | .str _, _ => rfl
  | .list xs, h => by
    have hl := recreateList_plain d2c xs (by simpa [plainVal] using h)
    simp [recreate_classes, hl]
  | .dict kvs, h => by
    have hd := plainDict_no_tag kvs (by simpa [plainVal] using h)
    have hv := recreateVals_plain d2c kvs (by simpa [plainVal] using h)
    simp [recreate_classes, hd, hv]

theorem recreateList_plain (d2c : List (PyVal × PyVal) → Except PyErr PyVal) :
    ∀ xs, plainList xs = true → recreateList d2c xs = .ok xs
  | [], _ => rfl
  | x :: rest, h => by
    rw [plainList, Bool.and_eq_true] at h
    have h1 := recreate_plain d2c x h.1
    have h2 := recreateList_plain d2c rest h.2
    simp [recreateList, h1, h2]

theorem recreateVals_plain (d2c : List (PyVal × PyVal) → Except PyErr PyVal) :
    ∀ kvs, plainDict kvs = true → recreateVals d2c kvs = .ok kvs
  | [], _ => rfl
  | (k, v) :: rest, h => by
    rw [plainDict, Bool.and_eq_true, Bool.and_eq_true] at h
    obtain ⟨⟨_, hv⟩, hr⟩ := h
    have h1 := recreate_plain d2c v hv
    have h2 := recreateVals_plain d2c rest hr
    simp [recreateVals, h1, h2]

end

mutual

theorem marshalable_plain : ∀ v, plainVal v = true → marshalable v = true
  | .none, _ => rfl
  | .bool _, _ => rfl
  | .int _, _ => rfl
  | .float _, _ => rfl
  | .str _, _ => rfl
  | .list xs, h => by
    have := marshalableList_plain xs (by simpa [plainVal] using h)
    simpa [marshalable] using this
  | .dict kvs, h => by
    have := marshalableVals_plain kvs (by simpa [plainVal] using h)
    simpa [marshalable] using this

theorem marshalableList_plain : ∀ xs, plainList xs = true → marshalableList xs = true
  | [], _ => rfl
  | x :: rest, h => by
    rw [plainList, Bool.and_eq_true] at h
    have h1 := marshalable_plain x h.1
    have h2 := marshalableList_plain rest h.2
    simp [marshalableList, h1, h2]

theorem marshalableVals_plain : ∀ kvs, plainDict kvs = true → marshalableVals kvs = true
  | [], _ => rfl
  | (k, v) :: rest, h => by
    rw [plainDict, Bool.and_eq_true, Bool.and_eq_true] at h
    obtain ⟨⟨hk, hv⟩, hr⟩ := h
    have h1 := marshalable_plain v hv
    have h2 := marshalableVals_plain rest hr
    cases k <;> simp_all [plainKey, marshalableVals, marshalable]

end

mutual

theorem serpentable_plain : ∀ v, plainVal v = true → serpentable v = true
  | .none, _ => rfl
  | .bool _, _ => rfl
  | .int _, _ => rfl
  | .float _, _ => rfl
  | .str _, _ => rfl
  | .list xs, h => by
    have := serpentableList_plain xs (by simpa [plainVal] using h)
    simpa [serpentable] using this
  | .dict kvs, h => by
    have := serpentableVals_plain kvs (by simpa [plainVal] using h)
    simpa [serpentable] using this

theorem serpentableList_plain : ∀ xs, plainList xs = true → serpentableList xs = true
  | [], _ => rfl
  | x :: rest, h => by
    rw [plainList, Bool.and_eq_true] at h
    have h1 := serpentable_plain x h.1
    have h2 := serpentableList_plain rest h.2
    simp [serpentableList, h1, h2]

theorem serpentableVals_plain : ∀ kvs, plainDict kvs = true → serpentableVals kvs = true
  | [], _ => rfl
  | (k, v) :: rest, h => by
    rw [plainDict, Bool.and_eq_true, Bool.and_eq_true] at h
    obtain ⟨⟨hk, hv⟩, hr⟩ := h
    have h1 := serpentable_plain v hv
    have h2 := serpentableVals_plain rest hr
    cases k <;> simp_all [plainKey, serpentableVals, serpentable]

end

mutual

theorem jsonEnc_plain (f : Nat) (repl : TypeRepl) (creg : ClassToDictReg) :
    ∀ v, plainVal v = true → jsonEnc f repl creg v = .ok v
  | .none, _ => by simp [jsonEnc]
  | .bool _, _ => by simp [jsonEnc]
  | .int _, _ => by simp [jsonEnc]
  | .float _, _ => by simp [jsonEnc]
  | .str _, _ => by simp [jsonEnc]
  | .list xs, h => by
    have hl := jsonEncList_plain f repl creg xs (by simpa [plainVal] using h)
    simp [jsonEnc, hl]
  | .dict kvs, h => by
    have hd := jsonEncDict_plain f repl creg kvs (by simpa [plainVal] using h)
    simp [jsonEnc, hd]

theorem jsonEncList_plain (f : Nat) (repl : TypeRepl) (creg : ClassToDictReg) :
    ∀ xs, plainList xs = true → jsonEncList f repl creg xs = .ok xs
  | [], _ => by simp [jsonEncList]
  | x :: rest, h => by
    rw [plainList, Bool.and_eq_true] at h
    have h1 := jsonEnc_plain f repl creg x h.1
    have h2 := jsonEncList_plain f repl creg rest h.2
    simp [jsonEncList, h1, h2]

theorem jsonEncDict_plain (f : Nat) (repl : TypeRepl) (creg : ClassToDictReg) :
    ∀ kvs, plainDict kvs = true → jsonEncDict f repl creg kvs = .ok kvs
  | [], _ => by simp [jsonEncDict]
  | (k, v) :: rest, h => by
    rw [plainDict, Bool.and_eq_true, Bool.and_eq_true] at h
    obtain ⟨⟨hk, hv⟩, hr⟩ := h
    have h1 := jsonEnc_plain f repl creg v hv
    have h2 := jsonEncDict_plain f repl creg rest hr
    cases k <;> simp_all [plainKey, jsonEncDict, jsonKeyStr]

end

mutual

theorem mp_plain (f : Nat) (repl : TypeRepl) (creg : ClassToDictReg) (reg : DictToClassReg) :
    ∀ v, plainVal v = true →
      ∃ m, mpEnc f repl creg v = .ok m ∧ mpDec reg m = .ok v
  | .none, _ => ⟨.nil, by simp [mpEnc], by simp [mpDec]⟩
  | .bool b, _ => ⟨.boolv b, by simp [mpEnc], by simp [mpDec]⟩
  | .int n, h =>
    ⟨.intv n, by
      have hn : msgpackNativeInt n = true := by simpa [plainVal] using h
      simp [mpEnc, hn], by simp [mpDec]⟩
  | .float q, _ => ⟨.floatv q, by simp [mpEnc], by simp [mpDec]⟩
  | .str s, _ => ⟨.strv s, by simp [mpEnc], by simp [mpDec]⟩
  | .list xs, h => by
    obtain ⟨ms, h1, h2⟩ := mpList_plain f repl creg reg xs (by simpa [plainVal] using h)
    exact ⟨.arr ms, by simp [mpEnc, h1], by simp [mpDec, h2]⟩
  | .dict kvs, h => by
    have hp : plainDict kvs = true := by simpa [plainVal] using h
    obtain ⟨ms, h1, h2⟩ := mpDict_plain f repl creg reg kvs hp
    have hd := plainDict_no_tag kvs hp
    exact ⟨.mapv ms, by simp [mpEnc, h1], by simp [mpDec, h2, hd]⟩

theorem mpList_plain (f : Nat) (repl : TypeRepl) (creg : ClassToDictReg) (reg : DictToClassReg) :
    ∀ xs, plainList xs = true →
      ∃ ms, mpEncList f repl creg xs = .ok ms ∧ mpDecList reg ms = .ok xs
  | [], _ => ⟨[], by simp [mpEncList], by simp [mpDecList]⟩
  | x :: rest, h => by
    rw [plainList, Bool.and_eq_true] at h
    obtain ⟨m, h1, h2⟩ := mp_plain f repl creg reg x h.1
    obtain ⟨ms, h3, h4⟩ := mpList_plain f repl creg reg rest h.2
    exact ⟨m :: ms, by simp [mpEncList, h1, h3], by simp [mpDecList, h2, h4]⟩

theorem mpDict_plain (f : Nat) (repl : TypeRepl) (creg : ClassToDictReg) (reg : DictToClassReg) :
    ∀ kvs, plainDict kvs = true →
      ∃ ms, mpEncDict f repl creg kvs = .ok ms ∧ mpDecPairs reg ms = .ok kvs
  | [], _ => ⟨[], by simp [mpEncDict], by simp [mpDecPairs]⟩
  | (k, v) :: rest, h => by
    rw [plainDict, Bool.and_eq_true, Bool.and_eq_true] at h
    obtain ⟨⟨hk, hv⟩, hr⟩ := h
    obtain ⟨m, h1, h2⟩ := mp_plain f repl creg reg v hv
    obtain ⟨ms, h3, h4⟩ := mpDict_plain f repl creg reg rest hr
    match k, hk with
    | .str s, _ =>
      exact ⟨(.strv s, m) :: ms,
        by simp [mpEncDict, mpEnc, h1, h3],
        by simp [mpDecPairs, mpDec, h2, h4]⟩

end

/-!  ## Claims -/

/-- C1: `dict_to_class` consults the custom dict-to-class registry first
and, on a match, returns the registered converter's result without any
further checks; only when the name is unregistered does a name containing
the double-underscore marker fail with `SecurityError`. -/
theorem claim_C1_registry_precedes_security_gate
    (reg : DictToClassReg) (data : List (PyVal × PyVal)) (name : String)
    (hname : extractClassname data = .ok name) :
    (∀ conv, reg.find? (fun e => e.1 == name) = some conv →
      dict_to_class reg data = .ok (conv.2 name data)) ∧
    (reg.find? (fun e => e.1 == name) = none → strHasDunder name = true →
      dict_to_class reg data = .error (.securityErr
        ("refused to deserialize types with double underscores in their name: " ++ name))) := by
  constructor
  · intro conv hconv
    simp [dict_to_class, dict_to_classAux, hname, hconv]
  · intro hnone hdund
    simp [dict_to_class, dict_to_classAux, hname, hnone, hdund]

/-- Witness for C1: the name `a.__b` carries the double-underscore marker;
registered, it reconstructs through the converter; unregistered, it fails
with `SecurityError`. -/
theorem claim_C1_witness :
    dict_to_class [("a.__b", fun n _ => .str n)]
        [(.str "__class__", .str "a.__b")] = .ok (.str "a.__b") ∧
    dict_to_class [] [(.str "__class__", .str "a.__b")] = .error (.securityErr
      "refused to deserialize types with double underscores in their name: a.__b") :=
  ⟨(claim_C1_registry_precedes_security_gate
      [("a.__b", fun n _ => .str n)] [(.str "__class__", .str "a.__b")] "a.__b" rfl).1
      ("a.__b", fun n _ => .str n) rfl,
   (claim_C1_registry_precedes_security_gate
      [] [(.str "__class__", .str "a.__b")] "a.__b" rfl).2 rfl rfl⟩

/-- C2 (amended): an unregistered, dunder-free type name fails with
`SerializeError` (`"unsupported serialized class: " ++ name`) when it
falls through the whitelist and exception-resolution branches without an
unresolvable reference: (a) no recognized prefix and no truthy
`__exception__` tag, (b) a `Pyro5.core.` name outside the hardcoded
whitelist, (c) a `Pyro5.util.` name outside the hardcoded whitelist,
(d) a truthy `__exception__` record whose dotted name is in none of the
recognized exception namespaces.  (The logging side effect of the same
line is not modelled.) -/
theorem claim_C2_closed_world_policy
    (reg : DictToClassReg) (data : List (PyVal × PyVal)) (name : String)
    (hname : extractClassname data = .ok name)
    (hreg : reg.find? (fun e => e.1 == name) = none)
    (hdund : strHasDunder name = false) :
    (strStarts name "Pyro5.core." = false → strStarts name "Pyro5.util." = false →
     strStarts name "Pyro5.errors." = false →
     (name == "Pyro5.core._ExceptionWrapper") = false →
     pyTruthy ((pyGet data "__exception__").getD (.bool false)) = false →
     dict_to_class reg data =
       .error (.serializeErr ("unsupported serialized class: " ++ name))) ∧
    (strStarts name "Pyro5.core." = true →
     (name == "Pyro5.core.URI") = false → (name == "Pyro5.core.Proxy") = false →
     (name == "Pyro5.core.Daemon") = false →
     dict_to_class reg data =
       .error (.serializeErr ("unsupported serialized class: " ++ name))) ∧
    (strStarts name "Pyro5.core." = false → strStarts name "Pyro5.util." = true →
     (name == "Pyro5.util.SerpentSerializer") = false →
     (name == "Pyro5.util.MarshalSerializer") = false →
     (name == "Pyro5.util.JsonSerializer") = false →
     (name == "Pyro5.util.MsgpackSerializer") = false →
     dict_to_class reg data =
       .error (.serializeErr ("unsupported serialized class: " ++ name))) ∧
    (strStarts name "Pyro5.core." = false → strStarts name "Pyro5.util." = false →
     strStarts name "Pyro5.errors." = false →
     (name == "Pyro5.core._ExceptionWrapper") = false →
     pyTruthy ((pyGet data "__exception__").getD (.bool false)) = true →
     allExceptions name = none →
     ∀ ns short, splitFirstDot name = some (ns, short) →
     (ns == "builtins") = false → (ns == "exceptions") = false →
     (ns == "sqlite3") = false →
     dict_to_class reg data =
       .error (.serializeErr ("unsupported serialized class: " ++ name))) := by
  refine ⟨?_, ?_, ?_, ?_⟩
  · intro h1 h2 h3 h4 h5
    simp [dict_to_class, dict_to_classAux, hname, hreg, hdund, h1, h2, h3, h4, h5,
      unsupportedClass]
  · intro h1 h2 h3 h4
    simp [dict_to_class, dict_to_classAux, hname, hreg, hdund, h1, h2, h3, h4,
      unsupportedClass]
  · intro h1 h2 h3 h4 h5 h6
    simp [dict_to_class, dict_to_classAux, hname, hreg, hdund, h1, h2, h3, h4, h5, h6,
      unsupportedClass]
  · intro h1 h2 h3 h4 h5 h6 ns short hsplit hb he hs
    simp [dict_to_class, dict_to_classAux, hname, hreg, hdund, h1, h2, h3, h4, h5, h6,
      hsplit, hb, he, hs, unsupportedClass]

/-- Counterexample to C2 as stated: the record
`{"__class__": "Foo", "__exception__": True}` names no registered,
whitelisted or resolvable exception type, yet `dict_to_class` raises a
`ValueError` (tuple unpacking of `"Foo".split(".", 1)`), not the claimed
`SerializeError`. -/
theorem claim_C2_counterexample :
    dict_to_class [] [(.str "__class__", .str "Foo"), (.str "__exception__", .bool true)] =
      .error (.valueErr "not enough values to unpack") ∧
    dict_to_class [] [(.str "__class__", .str "Foo"), (.str "__exception__", .bool true)] ≠
      .error (.serializeErr "unsupported serialized class: Foo") := by
  have h0 : dict_to_class []
      [(.str "__class__", .str "Foo"), (.str "__exception__", .bool true)] =
      .error (.valueErr "not enough values to unpack") := rfl
  refine ⟨h0, ?_⟩
  rw [h0]
  simp

/-- Witness for C2 at the four branch families: an unknown plain name, an
unknown `Pyro5.core.` name, an unknown `Pyro5.util.` name, and an
`__exception__` record in an unrecognized namespace. -/
theorem claim_C2_witness :
    dict_to_class [] [(.str "__class__", .str "mymodule.MyClass")] =
      .error (.serializeErr "unsupported serialized class: mymodule.MyClass") ∧
    dict_to_class [] [(.str "__class__", .str "Pyro5.core.Something")] =
      .error (.serializeErr "unsupported serialized class: Pyro5.core.Something") ∧
    dict_to_class [] [(.str "__class__", .str "Pyro5.util.Something")] =
      .error (.serializeErr "unsupported serialized class: Pyro5.util.Something") ∧
    dict_to_class [] [(.str "__class__", .str "random.Foo"), (.str "__exception__", .bool true)] =
      .error (.serializeErr "unsupported serialized class: random.Foo") :=
  ⟨(claim_C2_closed_world_policy [] [(.str "__class__", .str "mymodule.MyClass")]
      "mymodule.MyClass" rfl rfl rfl).1 rfl rfl rfl rfl rfl,
   (claim_C2_closed_world_policy [] [(.str "__class__", .str "Pyro5.core.Something")]
      "Pyro5.core.Something" rfl rfl rfl).2.1 rfl rfl rfl rfl,
   (claim_C2_closed_world_policy [] [(.str "__class__", .str "Pyro5.util.Something")]
      "Pyro5.util.Something" rfl rfl rfl).2.2.1 rfl rfl rfl rfl rfl rfl,
   (claim_C2_closed_world_policy
      [] [(.str "__class__", .str "random.Foo"), (.str "__exception__", .bool true)]
      "random.Foo" rfl rfl rfl).2.2.2 rfl rfl rfl rfl rfl rfl "random" "Foo" rfl rfl rfl rfl⟩

/-- C4: reconstructing an Exception Record for a resolvable framework
error type calls the resolved constructor with the stored positional args
and then sets every entry of the stored attributes mapping on the new
instance. -/
theorem claim_C4_exception_record_reconstruction
    (reg : DictToClassReg) (data : List (PyVal × PyVal)) (name : String)
    (args : List PyVal) (attrsKvs : List (PyVal × PyVal)) (attrs : List (String × PyVal))
    (hname : extractClassname data = .ok name)
    (hreg : reg.find? (fun e => e.1 == name) = none)
    (hdund : strHasDunder name = false)
    (hcore : strStarts name "Pyro5.core." = false)
    (hutil : strStarts name "Pyro5.util." = false)
    (herrs : strStarts name "Pyro5.errors." = true)
    (hknown : strDrop name 13 ∈ pyroErrorNames)
    (hargs : pyGet data "args" = some (.tuple args))
    (hattrs : pyGet data "attributes" = some (.dict attrsKvs))
    (hcoll : collectAttrs attrsKvs = .ok attrs) :
    dict_to_class reg data =
      .ok (.exc ("Pyro5.errors." ++ strDrop name 13) args attrs) := by
  simp [dict_to_class, dict_to_classAux, hname, hreg, hdund, hcore, hutil, herrs,
    hknown, make_exception, hargs, hattrs, hcoll]

/-- Witness for C4: the record of the spec's example yields a
`Pyro5.errors.ProtocolError` instance whose first positional argument (the
message) is `"bad request"` and whose `extra` attribute is `42`. -/
theorem claim_C4_witness :
    dict_to_class [] [(.str "__class__", .str "Pyro5.errors.ProtocolError"),
        (.str "args", .tuple [.str "bad request"]),
        (.str "attributes", .dict [(.str "extra", .int 42)])] =
      .ok (.exc "Pyro5.errors.ProtocolError" [.str "bad request"] [("extra", .int 42)]) :=
  claim_C4_exception_record_reconstruction []
    [(.str "__class__", .str "Pyro5.errors.ProtocolError"),
     (.str "args", .tuple [.str "bad request"]),
     (.str "attributes", .dict [(.str "extra", .int 42)])]
    "Pyro5.errors.ProtocolError" [.str "bad request"]
    [(.str "extra", .int 42)] [("extra", .int 42)]
    rfl rfl rfl rfl rfl rfl (by decide) rfl rfl rfl

/-- C5: the compression wrapper returns the payload unmodified with flag
`false` when compression is off or the payload is under 200 bytes;
otherwise it returns the zlib form with flag `true` exactly when that is
strictly smaller, and the unmodified payload with flag `false` otherwise.
In particular any 50-byte payload comes back unmodified with flag
`false`. -/
theorem claim_C5_compression_wrapper
    (dumps : PyVal → List Nat) (zlib : List Nat → List Nat) (data : PyVal) :
    (∀ compress, compress = false ∨ (dumps data).length < 200 →
      serializeData dumps zlib data compress = (dumps data, false)) ∧
    (200 ≤ (dumps data).length →
      ((zlib (dumps data)).length < (dumps data).length →
        serializeData dumps zlib data true = (zlib (dumps data), true)) ∧
      (¬ (zlib (dumps data)).length < (dumps data).length →
        serializeData dumps zlib data true = (dumps data, false))) ∧
    ((dumps data).length = 50 →
      serializeData dumps zlib data true = (dumps data, false)) := by
  refine ⟨?_, ?_, ?_⟩
  · rintro compress (h | h)
    · subst h; simp [serializeData, compressdata]
    · simp [serializeData, compressdata, h]
  · intro hlen
    constructor
    · intro hsm
      have : ¬ ((dumps data).length < 200) := by omega
      simp [serializeData, compressdata, this, hsm]
    · intro hsm
      have : ¬ ((dumps data).length < 200) := by omega
      simp [serializeData, compressdata, this, hsm]
  · intro h50
    have : (dumps data).length < 200 := by omega
    simp [serializeData, compressdata, this]

/-- Witness for C5: a 50-byte payload with `compress = true` comes back
unmodified with flag `false`; a 10000-byte compressible payload comes
back as the smaller zlib form with flag `true`. -/
theorem claim_C5_witness :
    serializeData (fun _ => List.replicate 50 7) (fun _ => [])
      PyVal.none true = (List.replicate 50 7, false) ∧
    serializeData (fun _ => List.replicate 10000 7) (fun _ => [1, 2, 3])
      PyVal.none true = ([1, 2, 3], true) :=
  ⟨(claim_C5_compression_wrapper (fun _ => List.replicate 50 7) (fun _ => [])
      PyVal.none).2.2 (by simp only [List.length_replicate]),
   ((claim_C5_compression_wrapper (fun _ => List.replicate 10000 7) (fun _ => [1, 2, 3])
      PyVal.none).2.1 (by simp only [List.length_replicate]; decide)).1
      (by simp only [List.length_replicate, List.length_cons, List.length_nil]; decide)⟩

/-- C6: the msgpack adapter encodes every complex number as extension tag
`0x30` with a 16-byte payload of the two doubles (real, then imaginary),
and decoding that extension value yields back exactly the same complex
number; the round trip is the identity.  Stated under the default (empty)
type-replacement registry with one unit of fuel for the `default` hook. -/
theorem claim_C6_complex_ext_codec (f : Nat) (creg : ClassToDictReg)
    (reg : DictToClassReg) (re im : ℚ) :
    mpEnc (f + 1) [] creg (.complexNum re im) = .ok (.ext 0x30 (.dd re im)) ∧
    payloadByteLen (.dd re im) = 16 ∧
    ext_hook 0x30 (.dd re im) = .ok (.complexNum re im) ∧
    msgpackRoundTrip (f + 1) [] creg reg (.complexNum re im) =
      .ok (.complexNum re im) := by
  have henc : mpEnc (f + 1) [] creg (.complexNum re im) = .ok (.ext 0x30 (.dd re im)) := by
    simp [mpEnc, mpDefault, applyRepl]
  refine ⟨henc, rfl, rfl, ?_⟩
  simp [msgpackRoundTrip, henc, Except.bind, mpDec, ext_hook]

/-- C7: the msgpack adapter refuses a timezone-carrying datetime with
`SerializeError` and encodes a timezone-naive datetime as extension tag
`0x32` with one 8-byte double of POSIX seconds. -/
theorem claim_C7_datetime_timezone (f : Nat) (creg : ClassToDictReg) (ts : ℚ) :
    mpEnc (f + 1) [] creg (.datetime ts true) =
      .error (.serializeErr "msgpack cannot serialize datetime with timezone info") ∧
    mpEnc (f + 1) [] creg (.datetime ts false) = .ok (.ext 0x32 (.d ts)) ∧
    payloadByteLen (.d ts) = 8 := by
  refine ⟨?_, ?_, rfl⟩ <;> simp [mpEnc, mpDefault, applyRepl]

/-- C8: `ext_hook` dispatches purely on the tag byte: `0x30` decodes to a
complex number, `0x31` to an integer parsed from ASCII decimal digits,
`0x32` to a timezone-naive timestamp, `0x33` to a calendar date from an
ordinal day count, and every other tag fails with `SerializeError`
whatever the payload is. -/
theorem claim_C8_ext_hook_dispatch :
    (∀ re im : ℚ, ext_hook 0x30 (.dd re im) = .ok (.complexNum re im)) ∧
    (∀ s n, asciiToInt s = some n → ext_hook 0x31 (.ascii s) = .ok (.int n)) ∧
    (∀ x : ℚ, ext_hook 0x32 (.d x) = .ok (.datetime x false)) ∧
    (∀ n : Int, 1 ≤ n → n ≤ 3652059 → ext_hook 0x33 (.l n) = .ok (.date n)) ∧
    (∀ code payload, (code == 0x30) = false → (code == 0x31) = false →
      (code == 0x32) = false → (code == 0x33) = false →
      ext_hook code payload =
        .error (.serializeErr ("invalid ext code for msgpack: " ++ toString code))) := by
  refine ⟨fun re im => rfl, ?_, fun x => rfl, ?_, ?_⟩
  · intro s n h
    simp [ext_hook, h]
  · intro n h1 h2
    simp [ext_hook, h1, h2]
  · intro code payload h0 h1 h2 h3
    simp [ext_hook, h0, h1, h2, h3]

/-- Witness for C8: tag `0x31` parses `"-12"`, tag `0x33` accepts ordinal
`1`, and the out-of-range tag `0x99` fails with `SerializeError`. -/
theorem claim_C8_witness :
    ext_hook 0x31 (.ascii "-12") = .ok (.int (-12)) ∧
    ext_hook 0x33 (.l 1) = .ok (.date 1) ∧
    ext_hook 0x99 (.dd 0 0) =
      .error (.serializeErr "invalid ext code for msgpack: 153") :=
  ⟨claim_C8_ext_hook_dispatch.2.1 "-12" (-12) (by decide),
   claim_C8_ext_hook_dispatch.2.2.2.1 1 (by decide) (by decide),
   claim_C8_ext_hook_dispatch.2.2.2.2 0x99 (.dd 0 0) rfl rfl rfl rfl⟩

/-- C9: with no matching custom to-dict converter, `class_to_dict` on a
value whose exact type is a bare set, mapping, tuple or sequence fails
with a `ValueError`-class failure (never producing a record and never a
`SerializeError`). -/
theorem claim_C9_bare_container_valueerror (creg : ClassToDictReg) (clsName : String) :
    (∀ xs, creg.find? (fun e => e.1 (.set xs)) = none →
      class_to_dict creg clsName (.set xs) =
        .error (.valueErr "can\x27t serialize type <class \x27set\x27> into a dict")) ∧
    (∀ kvs, creg.find? (fun e => e.1 (.dict kvs)) = none →
      class_to_dict creg clsName (.dict kvs) =
        .error (.valueErr "can\x27t serialize type <class \x27dict\x27> into a dict")) ∧
    (∀ xs, creg.find? (fun e => e.1 (.tuple xs)) = none →
      class_to_dict creg clsName (.tuple xs) =
        .error (.valueErr "can\x27t serialize type <class \x27tuple\x27> into a dict")) ∧
    (∀ xs, creg.find? (fun e => e.1 (.list xs)) = none →
      class_to_dict creg clsName (.list xs) =
        .error (.valueErr "can\x27t serialize type <class \x27list\x27> into a dict")) := by
  refine ⟨?_, ?_, ?_, ?_⟩ <;> intro xs h <;>
    simp [class_to_dict, h, pyClassStr, pyTypeName]

/-- Witness for C9 with the empty converter registry. -/
theorem claim_C9_witness :
    class_to_dict [] "MarshalSerializer" (.set [.int 1]) =
      .error (.valueErr "can\x27t serialize type <class \x27set\x27> into a dict") ∧
    class_to_dict [] "JsonSerializer" (.dict []) =
      .error (.valueErr "can\x27t serialize type <class \x27dict\x27> into a dict") ∧
    class_to_dict [] "MsgpackSerializer" (.tuple []) =
      .error (.valueErr "can\x27t serialize type <class \x27tuple\x27> into a dict") ∧
    class_to_dict [] "SerpentSerializer" (.list [.none]) =
      .error (.valueErr "can\x27t serialize type <class \x27list\x27> into a dict") :=
  ⟨(claim_C9_bare_container_valueerror [] "MarshalSerializer").1 [.int 1] rfl,
   (claim_C9_bare_container_valueerror [] "JsonSerializer").2.1 [] rfl,
   (claim_C9_bare_container_valueerror [] "MsgpackSerializer").2.2.1 [] rfl,
   (claim_C9_bare_container_valueerror [] "SerpentSerializer").2.2.2 [.none] rfl⟩

/-- C10: a uuid value is serialized as its canonical text by the marshal,
json and msgpack adapters, so deserializing the result yields that text
string, not a uuid value. -/
theorem claim_C10_uuid_serialized_as_text (s : String) (f : Nat)
    (creg : ClassToDictReg) (reg : DictToClassReg) :
    marshalDumps creg (.uuid s) = .ok (.str s) ∧
    jsonEnc (f + 1) [] creg (.uuid s) = .ok (.str s) ∧
    mpEnc (f + 1) [] creg (.uuid s) = .ok (.strv s) ∧
    marshalRoundTrip creg reg (.uuid s) = .ok (.str s) ∧
    jsonRoundTrip (f + 1) [] creg reg (.uuid s) = .ok (.str s) ∧
    msgpackRoundTrip (f + 1) [] creg reg (.uuid s) = .ok (.str s) ∧
    PyVal.str s ≠ PyVal.uuid s := by
  have hm : marshalDumps creg (.uuid s) = .ok (.str s) := by
    simp [marshalDumps, marshalable, marshal_class_to_dict]
  have hj : jsonEnc (f + 1) [] creg (.uuid s) = .ok (.str s) := by
    simp [jsonEnc, jsonDefault, applyRepl]
  have hp : mpEnc (f + 1) [] creg (.uuid s) = .ok (.strv s) := by
    simp [mpEnc, mpDefault, applyRepl]
  refine ⟨hm, hj, hp, ?_, ?_, ?_, by simp⟩
  · simp [marshalRoundTrip, hm, Except.bind, marshalLoads, recreate_classes]
  · simp [jsonRoundTrip, hj, Except.bind, jsonLoads, recreate_classes]
  · simp [msgpackRoundTrip, hp, Except.bind, mpDec]

/-- C3 (amended): `deserialize(serialize v) = v` holds for every adapter
on the common canonical grammar — null, booleans, numbers in the binary
format's native integer range, exact floats, text, ordered sequences and
text-keyed mappings not carrying the reserved `"__class__"` tag — and a
set of scalars is coerced to an ordered sequence of the same elements in
the same order under the json and msgpack adapters (never coerced back),
while marshal and serpent round-trip it as a set.  A mapping carrying the
reserved tag is reconstructed or rejected instead of being returned
(counterexample), tuples arrive back as lists under json/msgpack, and
byte-sequences are not serializable under json. -/
theorem claim_C3_roundtrip_common_grammar (f : Nat) (repl : TypeRepl)
    (creg : ClassToDictReg) (reg : DictToClassReg) :
    (∀ v, plainVal v = true →
      marshalRoundTrip creg reg v = .ok v ∧
      jsonRoundTrip f repl creg reg v = .ok v ∧
      msgpackRoundTrip f repl creg reg v = .ok v ∧
      serpentRoundTrip reg v = .ok v) ∧
    (∀ xs, scalarList xs = true →
      marshalRoundTrip creg reg (.set xs) = .ok (.set xs) ∧
      serpentRoundTrip reg (.set xs) = .ok (.set xs) ∧
      jsonRoundTrip (f + 1) [] creg reg (.set xs) = .ok (.list xs) ∧
      msgpackRoundTrip (f + 1) [] creg reg (.set xs) = .ok (.list xs)) := by
  constructor
  · intro v h
    refine ⟨?_, ?_, ?_, ?_⟩
    · have hm := marshalable_plain v h
      have hr := recreate_plain (dict_to_class reg) v h
      simp [marshalRoundTrip, marshalDumps, hm, Except.bind, marshalLoads, hr]
    · have he := jsonEnc_plain f repl creg v h
      have hr := recreate_plain (dict_to_class reg) v h
      simp [jsonRoundTrip, he, Except.bind, jsonLoads, hr]
    · obtain ⟨m, h1, h2⟩ := mp_plain f repl creg reg v h
      simp [msgpackRoundTrip, h1, Except.bind, h2]
    · have hs := serpentable_plain v h
      have hr := recreate_plain (serpent_dict_to_class reg) v h
      simp [serpentRoundTrip, serpentDumps, hs, Except.bind, serpentLoads, hr]
  · intro xs h
    have hpl := scalarList_plainList xs h
    refine ⟨?_, ?_, ?_, ?_⟩
    · have hm : marshalable (.set xs) = true := by
        simpa [marshalable] using marshalableList_plain xs hpl
      have hr : recreate_classes (dict_to_class reg) (.set xs) = .ok (.set xs) := by
        simp [recreate_classes, recreateList_plain (dict_to_class reg) xs hpl]
      simp [marshalRoundTrip, marshalDumps, hm, Except.bind, marshalLoads, hr]
    · have hs : serpentable (.set xs) = true := by
        simpa [serpentable] using serpentableList_plain xs hpl
      have hr : recreate_classes (serpent_dict_to_class reg) (.set xs) = .ok (.set xs) := by
        simp [recreate_classes, recreateList_plain (serpent_dict_to_class reg) xs hpl]
      simp [serpentRoundTrip, serpentDumps, hs, Except.bind, serpentLoads, hr]
    · have he : jsonEnc (f + 1) [] creg (.set xs) = .ok (.list xs) := by
        simp [jsonEnc, jsonDefault, applyRepl, jsonEncList_plain f [] creg xs hpl]
      have hr : recreate_classes (dict_to_class reg) (.list xs) = .ok (.list xs) := by
        simp [recreate_classes, recreateList_plain (dict_to_class reg) xs hpl]
      simp [jsonRoundTrip, he, Except.bind, jsonLoads, hr]
    · obtain ⟨ms, h1, h2⟩ := mpList_plain f [] creg reg xs hpl
      have he : mpEnc (f + 1) [] creg (.set xs) = .ok (.arr ms) := by
        simp [mpEnc, mpDefault, applyRepl, h1]
      simp [msgpackRoundTrip, he, Except.bind, mpDec, h2]

/-- Counterexample to C3 as stated: the mapping
`{"__class__": "X"}` is a canonical grammar value (and not a set), yet
`deserialize(serialize v)` under the marshal adapter raises
`SerializeError` instead of returning it — the decoder hands every
mapping carrying the reserved tag to `dict_to_class`. -/
theorem claim_C3_counterexample :
    marshalRoundTrip [] [] (.dict [(.str "__class__", .str "X")]) =
      .error (.serializeErr "unsupported serialized class: X") ∧
    marshalRoundTrip [] [] (.dict [(.str "__class__", .str "X")]) ≠
      .ok (.dict [(.str "__class__", .str "X")]) := by
  have h0 : marshalRoundTrip [] [] (.dict [(.str "__class__", .str "X")]) =
      .error (.serializeErr "unsupported serialized class: X") := rfl
  exact ⟨h0, by rw [h0]; simp⟩

/-- Witness for C3 at a concrete mapping and a concrete scalar set. -/
theorem claim_C3_witness :
    marshalRoundTrip [] [] (.dict [(.str "a", .int 1), (.str "b", .list [.str "x"])]) =
      .ok (.dict [(.str "a", .int 1), (.str "b", .list [.str "x"])]) ∧
    jsonRoundTrip 0 [] [] [] (.dict [(.str "a", .int 1), (.str "b", .list [.str "x"])]) =
      .ok (.dict [(.str "a", .int 1), (.str "b", .list [.str "x"])]) ∧
    msgpackRoundTrip 0 [] [] [] (.dict [(.str "a", .int 1), (.str "b", .list [.str "x"])]) =
      .ok (.dict [(.str "a", .int 1), (.str "b", .list [.str "x"])]) ∧
    serpentRoundTrip [] (.dict [(.str "a", .int 1), (.str "b", .list [.str "x"])]) =
      .ok (.dict [(.str "a", .int 1), (.str "b", .list [.str "x"])]) ∧
    marshalRoundTrip [] [] (.set [.int 1, .str "y"]) = .ok (.set [.int 1, .str "y"]) ∧
    serpentRoundTrip [] (.set [.int 1, .str "y"]) = .ok (.set [.int 1, .str "y"]) ∧
    jsonRoundTrip 1 [] [] [] (.set [.int 1, .str "y"]) = .ok (.list [.int 1, .str "y"]) ∧
    msgpackRoundTrip 1 [] [] [] (.set [.int 1, .str "y"]) = .ok (.list [.int 1, .str "y"]) := by
  have T := claim_C3_roundtrip_common_grammar 0 [] [] []
  have hv := T.1 (.dict [(.str "a", .int 1), (.str "b", .list [.str "x"])]) (by decide)
  have hs := T.2 [.int 1, .str "y"] (by decide)
  exact ⟨hv.1, hv.2.1, hv.2.2.1, hv.2.2.2, hs.1, hs.2.1, hs.2.2.1, hs.2.2.2⟩

end Pyro5
